import Mathlib

/-!
Verification of the fetch-and-cache aggregation engine of the ops-manager
dashboard (`app.py`, `get_backup_storage.py`).  The Python functions are
embedded shallowly: file-system state (the cache file) and the network
(the category adapter) are passed in explicitly as values describing what
they would do, and the functions below mirror the Python control flow over
those values.
-/

section Embedding

variable {α : Type}

/-- One configured Ops Manager instance (entry of `list_opsmanager['ops_manager']`);
only the fields the fetch engine reads are kept. -/
structure OpsManager where
  url : String
  region : String
  environment : String
deriving DecidableEq, Repr

/-- On-disk content of a cache file as seen by `load_cache`: missing file,
legacy bare-list format, or the `{timestamp, data}` envelope. -/
inductive CacheContent (α : Type) where
  | absent : CacheContent α
  | legacy (records : List α) : CacheContent α
  | envelope (timestamp : String) (records : List α) : CacheContent α
deriving DecidableEq, Repr

/-- `load_cache`: `None` for a missing file, otherwise the logical record list
(`data` field of the envelope, or the bare list for the legacy shape). -/
def load_cache : CacheContent α → Option (List α)
  | .absent => none
  | .legacy records => some records
  | .envelope _ records => some records

/-- Python truthiness of `cached_data` (an optional list): `None` and `[]`
are both falsy.  `app.py` tests `not cached_data` / `if cached_data:`. -/
def truthy : Option (List α) → Bool
  | none => false
  | some l => !l.isEmpty

/-- What the category adapter (`gather_*_for_credentials`) does on this call:
returns a list, returns `None`, or raises an exception with message `msg`. -/
inductive AdapterOutcome (α : Type) where
  | ok (data : List α) : AdapterOutcome α
  | null : AdapterOutcome α
  | raises (msg : String) : AdapterOutcome α
deriving DecidableEq, Repr

/-- The frozen per-source environment of one call of the fetch policy: the
cache file's content, the adapter's behaviour, whether `save_cache` would
raise, and an exception raised outside `fetch_and_cache_data` (caught by the
outer handler of `fetch_single_ops_manager`), if any. -/
structure SourceEnv (α : Type) where
  cacheFile : CacheContent α
  adapter : AdapterOutcome α
  saveFails : Bool
  unexpected : Option String
deriving DecidableEq, Repr

/-- The structured outcome dict built by `fetch_single_ops_manager`. -/
structure FetchResult (α : Type) where
  data : List α
  fetched : Nat
  cached : Nat
  error : Option String
deriving DecidableEq, Repr

/-- `fetch_and_cache_data` (app.py): returns `(data, error_message)` plus,
for the model, whether the cache file was actually written.  Non-`None`
adapter data (an empty list included) is success; a `save_cache` failure is
caught and the data still returned with no error. -/
def fetch_and_cache_data (url cat : String) (adapter : AdapterOutcome α)
    (saveFails : Bool) : List α × Option String × Bool :=
  match adapter with
  | .ok data => (data, none, !saveFails)
  | .null => ([], some ("No " ++ cat ++ " data returned from API for " ++ url), false)
  | .raises msg =>
      ([], some ("Failed to fetch " ++ cat ++ " data from " ++ url ++ ": " ++ msg), false)

/-- `fetch_single_ops_manager` (the Single-Source Fetch Policy, app.py):
returns the outcome dict and, for the model, whether the adapter was
invoked (a network call was made). -/
def fetch_single_ops_manager (om : OpsManager) (cat : String) (refresh : Bool)
    (env : SourceEnv α) : FetchResult α × Bool :=
  match env.unexpected with
  | some msg =>
      (⟨[], 0, 0, some (om.url ++ ": Unexpected error: " ++ msg)⟩, false)
  | none =>
      let cached_data := load_cache env.cacheFile
      if refresh || !truthy cached_data then
        let fr := fetch_and_cache_data om.url cat env.adapter env.saveFails
        match fr.2.1 with
        | some errMsg =>
            if truthy cached_data then
              (⟨cached_data.getD [], 0, (cached_data.getD []).length,
                some (om.region ++ "-" ++ om.environment ++ ": " ++ errMsg ++ " (using cache)")⟩,
               true)
            else
              (⟨[], 0, 0, some (om.region ++ "-" ++ om.environment ++ ": " ++ errMsg)⟩, true)
        | none => (⟨fr.1, fr.1.length, 0, none⟩, true)
      else
        (⟨cached_data.getD [], 0, (cached_data.getD []).length, none⟩, false)

/-- Display form of the error list in the concurrent status message:
`'; '.join(errors[:3])` followed by `'...'` when more than 3 errors. -/
def display_errors (errors : List String) : String :=
  String.intercalate "; " (errors.take 3) ++ (if 3 < errors.length then "..." else "")

/-- The status-message/status-type generation at the end of
`fetch_multiple_ops_managers_concurrent` (app.py), as a function of the
refresh flag, the totals, the number of sources and the error list. -/
def status_narrator (refresh : Bool) (tf tc n : Nat) (errors : List String) :
    String × String :=
  if !errors.isEmpty then
    if tf > 0 || tc > 0 then
      ((if refresh then
          "Refresh completed with warnings. Fetched " ++ toString tf ++
            " records, used " ++ toString tc ++ " cached records from " ++
            toString n ++ " Ops Managers. Issues: " ++ display_errors errors
        else
          "Data loaded with warnings. Fetched " ++ toString tf ++
            " records from API (cache missing), used " ++ toString tc ++
            " cached records from " ++ toString n ++ " Ops Managers. Issues: " ++
            display_errors errors),
       "warning")
    else
      ((if refresh then "Refresh failed. Errors: " ++ display_errors errors
        else "Data loading failed. Errors: " ++ display_errors errors),
       "error")
  else
    ((if refresh then
        "Refresh successful! Fetched " ++ toString tf ++ " records from " ++
          toString n ++ " Ops Managers simultaneously."
      else
        "Data loaded successfully! Fetched " ++ toString tf ++
          " records from API (cache was missing) across " ++ toString n ++
          " Ops Managers."),
     "success")

/-- Shared accumulator of the result-collection loops (`all_data`,
`total_fetched`, `total_cached`, `errors`). -/
structure AggAcc (α : Type) where
  all_data : List α
  total_fetched : Nat
  total_cached : Nat
  errors : List String
deriving DecidableEq, Repr

/-- One iteration of the `as_completed` collection loop of
`fetch_multiple_ops_managers_concurrent`: extend the data, add the counts,
append the error if any. -/
def concurrent_collect_step (cat : String) (refresh : Bool) (acc : AggAcc α)
    (item : OpsManager × SourceEnv α) : AggAcc α :=
  let r := (fetch_single_ops_manager item.1 cat refresh item.2).1
  ⟨acc.all_data ++ r.data, acc.total_fetched + r.fetched, acc.total_cached + r.cached,
    acc.errors ++ (match r.error with | some e => [e] | none => [])⟩

/-- Final value of `fetch_multiple_ops_managers_concurrent`. -/
structure AggregateResult (α : Type) where
  all_data : List α
  status_message : String
  status_type : String
  total_fetched : Nat
  total_cached : Nat
  errors : List String
deriving DecidableEq, Repr

/-- `fetch_multiple_ops_managers_concurrent` (app.py): `completed` is the
per-source work in the order the futures complete (an arbitrary permutation
of the submitted list). -/
def fetch_multiple_ops_managers_concurrent (cat : String) (refresh : Bool)
    (completed : List (OpsManager × SourceEnv α)) : AggregateResult α :=
  let acc := completed.foldl (concurrent_collect_step cat refresh) ⟨[], 0, 0, []⟩
  let ms := status_narrator refresh acc.total_fetched acc.total_cached
    completed.length acc.errors
  ⟨acc.all_data, ms.1, ms.2, acc.total_fetched, acc.total_cached, acc.errors⟩

/-- One iteration of the sequential per-source loop of `backup_page`
(app.py): same cache test and `fetch_and_cache_data` call as the policy,
but the error string carries no "(using cache)" suffix. -/
def backup_page_seq_step (cat : String) (refresh : Bool) (acc : AggAcc α)
    (item : OpsManager × SourceEnv α) : AggAcc α :=
  let om := item.1
  let env := item.2
  let cached_data := load_cache env.cacheFile
  if refresh || !truthy cached_data then
    let fr := fetch_and_cache_data om.url cat env.adapter env.saveFails
    match fr.2.1 with
    | some errMsg =>
        let acc1 : AggAcc α :=
          ⟨acc.all_data, acc.total_fetched, acc.total_cached,
            acc.errors ++ [om.region ++ "-" ++ om.environment ++ ": " ++ errMsg]⟩
        if truthy cached_data then
          ⟨acc1.all_data ++ cached_data.getD [], acc1.total_fetched,
            acc1.total_cached + (cached_data.getD []).length, acc1.errors⟩
        else acc1
    | none =>
        ⟨acc.all_data ++ fr.1, acc.total_fetched + fr.1.length, acc.total_cached,
          acc.errors⟩
  else
    ⟨acc.all_data ++ cached_data.getD [], acc.total_fetched,
      acc.total_cached + (cached_data.getD []).length, acc.errors⟩

/-- The whole sequential loop of `backup_page` over the matching sources. -/
def backup_page_seq_run (cat : String) (refresh : Bool)
    (items : List (OpsManager × SourceEnv α)) : AggAcc α :=
  items.foldl (backup_page_seq_step cat refresh) ⟨[], 0, 0, []⟩

/-- Status-message generation of `backup_page`'s sequential branch:
`status_message`/`status_type` start as `""` and are only set when a
refresh was requested or something was fetched. -/
def backup_page_seq_status (refresh : Bool) (tf tc : Nat) (errors : List String) :
    String × String :=
  if refresh then
    if !errors.isEmpty then
      ("Refresh completed with errors. Fetched " ++ toString tf ++
         " clusters, used " ++ toString tc ++ " cached clusters. Errors: " ++
         String.intercalate "; " errors,
       "warning")
    else
      ("Data refreshed successfully! Fetched " ++ toString tf ++
         " clusters from API.", "success")
  else if tf > 0 then
    ("Data retrieval completed! Fetched " ++ toString tf ++
       " clusters from API (cache was missing).", "success")
  else ("", "")

/-- The missing-cache counting loop of `backup_page` /
`backup_storage_page`: counts sources whose loaded cache is falsy
(`if not cached_data`), i.e. absent OR an empty list. -/
def missing_cache_count (caches : List (Option (List α))) : Nat :=
  caches.foldl (fun n c => if truthy c then n else n + 1) 0

/-- `use_concurrent = refresh_requested or (missing_cache_count >= 2)`. -/
def use_concurrent (refresh : Bool) (caches : List (Option (List α))) : Bool :=
  refresh || decide (2 ≤ missing_cache_count caches)

/-- Count of sources with NO cache entry at all, following the claim's words
("the number of sources with no existing cache entry"): only an absent
entry counts as missing, a present-but-empty one does not. -/
def missing_cache_count_claim (caches : List (Option (List α))) : Nat :=
  caches.countP (fun c => c.isNone)

/-- `gather_backup_storage_for_credentials` (get_backup_storage.py): the
four storage lists are concatenated, each config is tagged, and an
all-empty result is converted to `None` (`return all_configs if all_configs
else None`); any exception is caught and yields `None`. -/
def gather_backup_storage_for_credentials (blockstore s3 oplog oplogS3 : List α)
    (tag : α → α) (raised : Option String) : Option (List α) :=
  match raised with
  | some _ => none
  | none =>
      let all_configs := blockstore ++ s3 ++ oplog ++ oplogS3
      if all_configs.isEmpty then none else some (all_configs.map tag)

/-- One iteration of the sequential per-source loop of
`backup_storage_page` (app.py): calls the adapter directly and tests
`if fresh_data:`, so `None` AND the empty list are both the failure
branch; a `save_cache` failure still keeps the fetched data. -/
def backup_storage_seq_step (refresh : Bool) (acc : AggAcc α)
    (om : OpsManager) (cached_data fresh_data : Option (List α))
    (saveFails : Bool) : AggAcc α :=
  if refresh || !truthy cached_data then
    if truthy fresh_data then
      let l := fresh_data.getD []
      if saveFails then
        ⟨acc.all_data ++ l, acc.total_fetched + l.length, acc.total_cached, acc.errors⟩
      else
        ⟨acc.all_data ++ l, acc.total_fetched + l.length, acc.total_cached, acc.errors⟩
    else
      let acc1 : AggAcc α :=
        ⟨acc.all_data, acc.total_fetched, acc.total_cached,
          acc.errors ++ [om.region ++ "-" ++ om.environment ++
            ": No backup storage data returned"]⟩
      if truthy cached_data then
        ⟨acc1.all_data ++ cached_data.getD [], acc1.total_fetched,
          acc1.total_cached + (cached_data.getD []).length, acc1.errors⟩
      else acc1
  else
    ⟨acc.all_data ++ cached_data.getD [], acc.total_fetched,
      acc.total_cached + (cached_data.getD []).length, acc.errors⟩

end Embedding

/-- Substring containment: `pat` occurs contiguously inside `s`. -/
def str_contains (s pat : String) : Bool :=
  decide (pat.data <:+: s.data)

/-- `fetched` count contributed by one source under the fetch policy. -/
def source_fetched {α : Type} (cat : String) (refresh : Bool)
    (it : OpsManager × SourceEnv α) : Nat :=
  ((fetch_single_ops_manager it.1 cat refresh it.2).1).fetched

/-- `cached` count contributed by one source under the fetch policy. -/
def source_cached {α : Type} (cat : String) (refresh : Bool)
    (it : OpsManager × SourceEnv α) : Nat :=
  ((fetch_single_ops_manager it.1 cat refresh it.2).1).cached

/-- Whether one source's fetch outcome carries an error. -/
def source_errored {α : Type} (cat : String) (refresh : Bool)
    (it : OpsManager × SourceEnv α) : Bool :=
  ((fetch_single_ops_manager it.1 cat refresh it.2).1).error.isSome

/-- The status kind as a function of the decision triple
`(forceRefresh, total_fetched + total_cached > 0, error list non-empty)`
described by the spec's decision table. -/
def narrator_kind (refresh progress errs : Bool) : String :=
  if errs then (if progress then "warning" else "error") else "success"

/-- The foldl missing-cache counter agrees with `countP` over falsy caches. -/
theorem missing_cache_count_eq_countP {α : Type} (caches : List (Option (List α))) :
    missing_cache_count caches = caches.countP (fun c => !truthy c) := by
  have key : ∀ (l : List (Option (List α))) (n : Nat),
      l.foldl (fun n c => if truthy c then n else n + 1) n =
        n + l.countP (fun c => !truthy c) := by
    intro l
    induction l with
    | nil => intro n; simp
    | cons c l ih =>
        intro n
        rw [List.foldl_cons, List.countP_cons, ih]
        cases hc : truthy c <;> simp [hc] <;> omega
  simpa using key caches 0

/-- C1: the claim says a present cache entry short-circuits the adapter even
when its record list is empty; but `fetch_single_ops_manager` tests Python
truthiness (`not cached_data`), so a present-but-empty cache entry triggers
an adapter call.  Concretely: `forceRefresh = false`, cache file holds the
envelope with record list `[]`, adapter would return one record — the
adapter is invoked and `fetched = 1`, not `0`. -/
theorem C1_counterexample :
    (fetch_single_ops_manager ⟨"http://a", "R1", "E1"⟩ "backup" false
      ⟨CacheContent.envelope "2024-01-01" ([] : List Nat), AdapterOutcome.ok [5],
        false, none⟩) =
    (⟨[5], 1, 0, none⟩, true) := by
  decide

/-- C1 (amended): for every source, when `forceRefresh` is false, no
unexpected exception occurs and the cache entry is present with a
NON-EMPTY record list, the fetch policy makes no adapter call and returns
exactly the cached records with `fetched = 0`, `cached = len(records)`,
`error = none`. -/
theorem C1_amended (om : OpsManager) (cat : String) (env : SourceEnv α)
    (hu : env.unexpected = none) (l : List α)
    (hl : load_cache env.cacheFile = some l) (hne : l ≠ []) :
    fetch_single_ops_manager om cat false env = (⟨l, 0, l.length, none⟩, false) := by
  have hemp : l.isEmpty = false := by
    cases l with
    | nil => exact absurd rfl hne
    | cons a t => rfl
  simp only [fetch_single_ops_manager, hu, hl, truthy, hemp, Bool.not_false,
    Bool.false_or, Bool.not_true, Option.getD_some]
  rfl

/-- C1 witness: the amended theorem applied at a concrete non-empty cache. -/
theorem C1_witness :
    fetch_single_ops_manager ⟨"http://a", "R1", "E1"⟩ "backup" false
      ⟨CacheContent.envelope "2024-01-01" ([7, 8] : List Nat), AdapterOutcome.ok [5],
        false, none⟩ =
    (⟨[7, 8], 0, 2, none⟩, false) :=
  C1_amended ⟨"http://a", "R1", "E1"⟩ "backup"
    ⟨CacheContent.envelope "2024-01-01" ([7, 8] : List Nat), AdapterOutcome.ok [5],
      false, none⟩ rfl [7, 8] rfl (by decide)

/-- C6: the Single-Source Fetch Policy never raises past its own boundary:
an unexpected exception (message `msg`) is caught and converted into the
no-prior-cache failure shape `records = [], fetched = 0, cached = 0` with
the error tagged with the source URL and a generic "Unexpected error" text,
for every source, category, refresh flag and environment. -/
theorem C6_exception_boundary {α : Type} (om : OpsManager) (cat : String)
    (refresh : Bool) (env : SourceEnv α) (msg : String)
    (hu : env.unexpected = some msg) :
    fetch_single_ops_manager om cat refresh env =
      (⟨[], 0, 0, some (om.url ++ ": Unexpected error: " ++ msg)⟩, false) := by
  simp only [fetch_single_ops_manager, hu]

/-- C6 witness: the boundary theorem at a concrete exception. -/
theorem C6_witness :
    fetch_single_ops_manager ⟨"http://a", "R1", "E1"⟩ "backup" true
      (⟨CacheContent.absent, AdapterOutcome.ok [1], false, some "disk on fire"⟩ :
        SourceEnv Nat) =
      (⟨[], 0, 0, some "http://a: Unexpected error: disk on fire"⟩, false) := by
  have h := C6_exception_boundary (α := Nat) ⟨"http://a", "R1", "E1"⟩ "backup" true
    ⟨CacheContent.absent, AdapterOutcome.ok [1], false, some "disk on fire"⟩
    "disk on fire" rfl
  simpa using h

/-- C9: a `save_cache` failure after a successful adapter fetch is
invisible in the returned outcome: `fetch_and_cache_data` returns
`(data, none)` whether or not the save raises, and the whole fetch policy
outcome is identical for `saveFails = true` and `saveFails = false`. -/
theorem C9_cache_write_failure_invisible {α : Type} (om : OpsManager)
    (cat : String) (refresh : Bool) (data : List α) (cf : CacheContent α)
    (u : Option String) (sf : Bool) :
    ((fetch_and_cache_data om.url cat (AdapterOutcome.ok data) sf).1,
      (fetch_and_cache_data om.url cat (AdapterOutcome.ok data) sf).2.1) =
        (data, none)
    ∧ fetch_single_ops_manager om cat refresh
        (⟨cf, AdapterOutcome.ok data, true, u⟩ : SourceEnv α) =
      fetch_single_ops_manager om cat refresh
        (⟨cf, AdapterOutcome.ok data, false, u⟩ : SourceEnv α) := by
  constructor
  · rfl
  · cases u <;> rfl

/-- C10: the concurrent aggregator's status type is `"success"` iff the
error list is empty, `"warning"` iff errors are present and
`total_fetched + total_cached > 0`, `"error"` iff errors are present and
the total is 0, and is never `"info"`. -/
theorem C10_status_type (r : Bool) (tf tc n : Nat) (es : List String) :
    (((status_narrator r tf tc n es).2 == "success") = es.isEmpty)
    ∧ (((status_narrator r tf tc n es).2 == "warning") =
        (!es.isEmpty && decide (0 < tf + tc)))
    ∧ (((status_narrator r tf tc n es).2 == "error") =
        (!es.isEmpty && decide (tf + tc = 0)))
    ∧ (status_narrator r tf tc n es).2 ≠ "info" := by
  cases es with
  | nil =>
      refine ⟨?_, ?_, ?_, ?_⟩ <;> simp [status_narrator]
  | cons e es =>
      by_cases h1 : 0 < tf <;> by_cases h2 : 0 < tc <;>
        refine ⟨?_, ?_, ?_, ?_⟩ <;>
          simp [status_narrator, h1, h2] <;> omega

/-- C4: the claim counts only sources with NO cache entry, but the code's
`missing_cache_count` uses Python truthiness, so a present-but-empty cache
entry also counts.  Concretely: 5 sources with `forceRefresh = false`,
exactly 1 with an absent cache entry and 1 with a present-but-empty one:
the claim predicts the sequential path (claim-missing = 1 < 2) but the
code uses the concurrent path. -/
theorem C4_counterexample :
    use_concurrent false
        [some ([] : List Nat), none, some [0], some [0], some [0]] = true
    ∧ missing_cache_count_claim
        [some ([] : List Nat), none, some [0], some [0], some [0]] = 1
    ∧ ¬ (false = true ∨ 2 ≤ missing_cache_count_claim
        [some ([] : List Nat), none, some [0], some [0], some [0]]) := by
  decide

/-- C4 (amended): the aggregator uses the concurrent path iff
`forceRefresh` is true or at least 2 sources have an absent-or-empty
(falsy) cache for the category; including the claim's three examples with
"missing" read as absent-or-empty. -/
theorem C4_amended :
    (∀ (α : Type) (r : Bool) (caches : List (Option (List α))),
        use_concurrent r caches =
          (r || decide (2 ≤ caches.countP (fun c => !truthy c))))
    ∧ use_concurrent false
        [none, some ([1] : List Nat), some [1], some [1], some [1]] = false
    ∧ use_concurrent false
        [none, none, some ([1] : List Nat), some [1], some [1]] = true
    ∧ use_concurrent true
        [some ([1] : List Nat), some [1], some [1], some [1], some [1]] = true := by
  refine ⟨?_, by decide, by decide, by decide⟩
  intro α r caches
  rw [use_concurrent, missing_cache_count_eq_countP]

/-- C2: the claim says an empty adapter result is treated as a success in
every category's path, but the backup-storage page's sequential branch
tests `if fresh_data:` so an empty list lands in the failure branch and
appends an error; moreover the backup-storage adapter itself converts an
all-empty (successful) result into `None`. -/
theorem C2_counterexample :
    (backup_storage_seq_step false ⟨[], 0, 0, []⟩ ⟨"http://a", "R1", "E1"⟩
        none (some ([] : List Nat)) false).errors =
      ["R1-E1: No backup storage data returned"]
    ∧ gather_backup_storage_for_credentials ([] : List Nat) [] [] [] id none = none := by
  constructor
  · rfl
  · rfl

/-- C2 (amended): in `fetch_and_cache_data` and the Single-Source Fetch
Policy (used by the concurrent path for every category, and by the backup
page's sequential loop), an adapter result that is an empty list is
treated as a success: the outcome is `records = [], fetched = 0,
cached = 0, error = none` and the cache-fallback branch is not taken.
The backup-storage page's sequential branch and the backup-storage
adapter's empty-to-None conversion are exceptions to the original claim. -/
theorem C2_amended {α : Type} (om : OpsManager) (cat : String) (refresh : Bool)
    (env : SourceEnv α) (hu : env.unexpected = none)
    (ha : env.adapter = AdapterOutcome.ok [])
    (hfetch : (refresh || !truthy (load_cache env.cacheFile)) = true) :
    fetch_single_ops_manager om cat refresh env = (⟨[], 0, 0, none⟩, true) := by
  simp only [fetch_single_ops_manager, hu, hfetch, ha, fetch_and_cache_data, if_true]
  rfl

/-- C2 witness: empty adapter result on a cache-missing source. -/
theorem C2_witness :
    fetch_single_ops_manager ⟨"http://a", "R1", "E1"⟩ "monitoring" false
      (⟨CacheContent.absent, AdapterOutcome.ok [], false, none⟩ : SourceEnv Nat) =
      (⟨[], 0, 0, none⟩, true) :=
  C2_amended ⟨"http://a", "R1", "E1"⟩ "monitoring" false
    ⟨CacheContent.absent, AdapterOutcome.ok [], false, none⟩ rfl rfl (by decide)

/-- C5: the claim says any adapter failure with a pre-existing cache
snapshot yields an error containing "(using cache)"; but when the snapshot
is an empty list the code's truthiness test (`if cached_data:`) takes the
no-cache branch, whose error does not contain "(using cache)".
Concretely: `forceRefresh = false`, cache file present with `[]`, adapter
returns `None`. -/
theorem C5_counterexample :
    ((fetch_single_ops_manager ⟨"http://a", "R1", "E1"⟩ "backup" false
        (⟨CacheContent.envelope "2024-01-01" [], AdapterOutcome.null, false, none⟩ :
          SourceEnv Nat)).1.error =
      some "R1-E1: No backup data returned from API for http://a")
    ∧ str_contains "R1-E1: No backup data returned from API for http://a"
        "(using cache)" = false := by
  constructor
  · rfl
  · decide

/-- C5 (amended): for every source whose adapter call fails under a forced
refresh while a NON-EMPTY cache snapshot existed before the fetch, the
outcome is exactly the old cached records with `fetched = 0`,
`cached = len(old cache)`, and a non-empty error string ending in
" (using cache)". -/
theorem C5_amended {α : Type} (om : OpsManager) (cat : String)
    (env : SourceEnv α) (hu : env.unexpected = none) (l : List α)
    (hl : load_cache env.cacheFile = some l) (hne : l ≠ []) (e : String)
    (he : (fetch_and_cache_data om.url cat env.adapter env.saveFails).2.1 = some e) :
    fetch_single_ops_manager om cat true env =
      (⟨l, 0, l.length,
        some (om.region ++ "-" ++ om.environment ++ ": " ++ e ++ " (using cache)")⟩,
       true)
    ∧ (∃ p, om.region ++ "-" ++ om.environment ++ ": " ++ e ++ " (using cache)" =
        p ++ " (using cache)")
    ∧ om.region ++ "-" ++ om.environment ++ ": " ++ e ++ " (using cache)" ≠ "" := by
  have hemp : l.isEmpty = false := by
    cases l with
    | nil => exact absurd rfl hne
    | cons a t => rfl
  refine ⟨?_, ⟨om.region ++ "-" ++ om.environment ++ ": " ++ e, rfl⟩, ?_⟩
  · simp only [fetch_single_ops_manager, hu, hl, he, truthy, hemp, Bool.not_false,
      Bool.true_or, if_true, Option.getD_some]
  · intro h
    have h2 := congrArg String.length h
    rw [String.length_append] at h2
    simp only [show (" (using cache)").length = 14 from rfl,
      show ("").length = 0 from rfl] at h2
    omega

/-- C5 witness: forced refresh, non-empty snapshot, adapter failure. -/
theorem C5_witness :
    fetch_single_ops_manager ⟨"http://a", "R1", "E1"⟩ "backup" true
      (⟨CacheContent.envelope "2024-01-01" [3, 4], AdapterOutcome.null, false, none⟩ :
        SourceEnv Nat) =
      (⟨[3, 4], 0, 2,
        some "R1-E1: No backup data returned from API for http://a (using cache)"⟩,
       true) := by
  have h := C5_amended (α := Nat) ⟨"http://a", "R1", "E1"⟩ "backup"
    ⟨CacheContent.envelope "2024-01-01" [3, 4], AdapterOutcome.null, false, none⟩
    rfl [3, 4] rfl (by decide) "No backup data returned from API for http://a" rfl
  simpa using h.1

/-- The collection loop's error list grows by exactly one entry per source
whose outcome carries an error — no cap is applied to the returned list. -/
theorem collect_errors_length {α : Type} (cat : String) (refresh : Bool)
    (items : List (OpsManager × SourceEnv α)) (acc : AggAcc α) :
    (items.foldl (concurrent_collect_step cat refresh) acc).errors.length =
      acc.errors.length + items.countP (source_errored cat refresh) := by
  induction items generalizing acc with
  | nil => simp
  | cons it items ih =>
      rw [List.foldl_cons, ih, List.countP_cons]
      cases herr : ((fetch_single_ops_manager it.1 cat refresh it.2).1).error <;>
        simp [concurrent_collect_step, source_errored, herr] <;> omega

/-- The collection loop's `total_fetched` is the sum of per-source
`fetched` counts. -/
theorem collect_fetched_sum {α : Type} (cat : String) (refresh : Bool)
    (items : List (OpsManager × SourceEnv α)) (acc : AggAcc α) :
    (items.foldl (concurrent_collect_step cat refresh) acc).total_fetched =
      acc.total_fetched + (items.map (source_fetched cat refresh)).sum := by
  induction items generalizing acc with
  | nil => simp
  | cons it items ih =>
      rw [List.foldl_cons, ih]
      simp [concurrent_collect_step, source_fetched]
      omega

/-- The collection loop's `total_cached` is the sum of per-source
`cached` counts. -/
theorem collect_cached_sum {α : Type} (cat : String) (refresh : Bool)
    (items : List (OpsManager × SourceEnv α)) (acc : AggAcc α) :
    (items.foldl (concurrent_collect_step cat refresh) acc).total_cached =
      acc.total_cached + (items.map (source_cached cat refresh)).sum := by
  induction items generalizing acc with
  | nil => simp
  | cons it items ih =>
      rw [List.foldl_cons, ih]
      simp [concurrent_collect_step, source_cached]
      omega

/-- One step of `backup_page`'s sequential loop adds the same `fetched` and
`cached` counts as the Single-Source Fetch Policy would report for that
source, provided no unexpected exception occurs. -/
theorem seq_step_counts {α : Type} (cat : String) (refresh : Bool)
    (acc : AggAcc α) (it : OpsManager × SourceEnv α)
    (hu : it.2.unexpected = none) :
    (backup_page_seq_step cat refresh acc it).total_fetched =
      acc.total_fetched + source_fetched cat refresh it
    ∧ (backup_page_seq_step cat refresh acc it).total_cached =
      acc.total_cached + source_cached cat refresh it := by
  obtain ⟨om, env⟩ := it
  replace hu : env.unexpected = none := hu
  unfold backup_page_seq_step source_fetched source_cached fetch_single_ops_manager
  simp only [hu]
  by_cases hcond : (refresh || !truthy (load_cache env.cacheFile)) = true
  · simp only [hcond, if_true]
    cases herr : (fetch_and_cache_data om.url cat env.adapter env.saveFails).2.1 with
    | none => simp [herr]
    | some e =>
        by_cases ht : truthy (load_cache env.cacheFile) = true <;>
          simp [herr, ht]
  · rw [Bool.not_eq_true] at hcond
    simp [hcond]

/-- `backup_page`'s whole sequential loop accumulates exactly the sums of
the per-source policy counts, for sources without unexpected exceptions. -/
theorem seq_run_counts {α : Type} (cat : String) (refresh : Bool)
    (items : List (OpsManager × SourceEnv α)) (acc : AggAcc α)
    (hu : ∀ it ∈ items, it.2.unexpected = none) :
    (items.foldl (backup_page_seq_step cat refresh) acc).total_fetched =
      acc.total_fetched + (items.map (source_fetched cat refresh)).sum
    ∧ (items.foldl (backup_page_seq_step cat refresh) acc).total_cached =
      acc.total_cached + (items.map (source_cached cat refresh)).sum := by
  revert hu
  induction items generalizing acc with
  | nil => intro hu; simp
  | cons it items ih =>
      intro hu
      have hit : it.2.unexpected = none := hu it (by simp)
      have hrest : ∀ x ∈ items, x.2.unexpected = none := fun x hx => hu x (by simp [hx])
      obtain ⟨hf, hc⟩ := seq_step_counts cat refresh acc it hit
      obtain ⟨ihf, ihc⟩ := ih (backup_page_seq_step cat refresh acc it) hrest
      constructor
      · rw [List.foldl_cons, ihf, hf]; simp; omega
      · rw [List.foldl_cons, ihc, hc]; simp; omega

/-- C3: for any frozen per-source cache/adapter behaviour without
unexpected exceptions, the concurrent aggregation — processing results in
an arbitrary completion order `perm` of the source list — and
`backup_page`'s sequential loop over the same list produce equal
`total_fetched`, equal `total_cached`, and hence an equal
`total_fetched + total_cached`. -/
theorem C3_concurrent_eq_sequential_counts {α : Type} (cat : String)
    (refresh : Bool) (items perm : List (OpsManager × SourceEnv α))
    (hperm : perm.Perm items) (hu : ∀ it ∈ items, it.2.unexpected = none) :
    (fetch_multiple_ops_managers_concurrent cat refresh perm).total_fetched =
      (backup_page_seq_run cat refresh items).total_fetched
    ∧ (fetch_multiple_ops_managers_concurrent cat refresh perm).total_cached =
      (backup_page_seq_run cat refresh items).total_cached
    ∧ (fetch_multiple_ops_managers_concurrent cat refresh perm).total_fetched +
        (fetch_multiple_ops_managers_concurrent cat refresh perm).total_cached =
      (backup_page_seq_run cat refresh items).total_fetched +
        (backup_page_seq_run cat refresh items).total_cached := by
  obtain ⟨sf, sc⟩ := seq_run_counts cat refresh items ⟨[], 0, 0, []⟩ hu
  have hf :
      (fetch_multiple_ops_managers_concurrent cat refresh perm).total_fetched =
        (backup_page_seq_run cat refresh items).total_fetched := by
    show (perm.foldl (concurrent_collect_step cat refresh) ⟨[], 0, 0, []⟩).total_fetched = _
    rw [collect_fetched_sum, backup_page_seq_run, sf,
      (hperm.map (source_fetched cat refresh)).sum_eq]
  have hc :
      (fetch_multiple_ops_managers_concurrent cat refresh perm).total_cached =
        (backup_page_seq_run cat refresh items).total_cached := by
    show (perm.foldl (concurrent_collect_step cat refresh) ⟨[], 0, 0, []⟩).total_cached = _
    rw [collect_cached_sum, backup_page_seq_run, sc,
      (hperm.map (source_cached cat refresh)).sum_eq]
  exact ⟨hf, hc, by omega⟩

/-- C3 witness: two sources (one cache hit, one fetch) collected in the
opposite completion order still match the sequential totals. -/
theorem C3_witness :
    (fetch_multiple_ops_managers_concurrent "backup" false
        [(⟨"http://b", "R2", "E2"⟩,
            (⟨CacheContent.absent, AdapterOutcome.ok [9], false, none⟩ : SourceEnv Nat)),
         (⟨"http://a", "R1", "E1"⟩,
            ⟨CacheContent.envelope "t" [1, 2], AdapterOutcome.null, false, none⟩)]).total_fetched =
      (backup_page_seq_run "backup" false
        [(⟨"http://a", "R1", "E1"⟩,
            (⟨CacheContent.envelope "t" [1, 2], AdapterOutcome.null, false, none⟩ : SourceEnv Nat)),
         (⟨"http://b", "R2", "E2"⟩,
            ⟨CacheContent.absent, AdapterOutcome.ok [9], false, none⟩)]).total_fetched
    ∧ (fetch_multiple_ops_managers_concurrent "backup" false
        [(⟨"http://b", "R2", "E2"⟩,
            (⟨CacheContent.absent, AdapterOutcome.ok [9], false, none⟩ : SourceEnv Nat)),
         (⟨"http://a", "R1", "E1"⟩,
            ⟨CacheContent.envelope "t" [1, 2], AdapterOutcome.null, false, none⟩)]).total_cached =
      (backup_page_seq_run "backup" false
        [(⟨"http://a", "R1", "E1"⟩,
            (⟨CacheContent.envelope "t" [1, 2], AdapterOutcome.null, false, none⟩ : SourceEnv Nat)),
         (⟨"http://b", "R2", "E2"⟩,
            ⟨CacheContent.absent, AdapterOutcome.ok [9], false, none⟩)]).total_cached := by
  have h := C3_concurrent_eq_sequential_counts (α := Nat) "backup" false
    [(⟨"http://a", "R1", "E1"⟩,
        ⟨CacheContent.envelope "t" [1, 2], AdapterOutcome.null, false, none⟩),
     (⟨"http://b", "R2", "E2"⟩,
        ⟨CacheContent.absent, AdapterOutcome.ok [9], false, none⟩)]
    [(⟨"http://b", "R2", "E2"⟩,
        ⟨CacheContent.absent, AdapterOutcome.ok [9], false, none⟩),
     (⟨"http://a", "R1", "E1"⟩,
        ⟨CacheContent.envelope "t" [1, 2], AdapterOutcome.null, false, none⟩)]
    (List.Perm.swap _ _ _) (by decide)
  exact ⟨h.1, h.2.1⟩

/-- C7: when the error list is non-empty, the concurrent status message
displays the first 3 errors joined by "; " with "..." appended when more
than 3 exist, while the aggregator's returned error list is uncapped: its
length equals the number of sources whose outcome carried an error. -/
theorem C7_error_display_cap {α : Type} (r : Bool) (tf tc n : Nat)
    (es : List String) (cat : String)
    (items : List (OpsManager × SourceEnv α)) (h : es ≠ []) :
    (∃ p, (status_narrator r tf tc n es).1 =
        p ++ (String.intercalate "; " (es.take 3) ++
          (if 3 < es.length then "..." else "")))
    ∧ (es.take 3).length ≤ 3
    ∧ (fetch_multiple_ops_managers_concurrent cat r items).errors.length =
        items.countP (source_errored cat r) := by
  have hne : es.isEmpty = false := by
    cases es with
    | nil => exact absurd rfl h
    | cons a t => rfl
  refine ⟨?_, ?_, ?_⟩
  · simp only [status_narrator, hne, Bool.not_false, if_true]
    by_cases hp : (tf > 0 || tc > 0) = true
    · simp only [hp, if_true]
      cases r <;> exact ⟨_, rfl⟩
    · rw [Bool.not_eq_true] at hp
      simp only [hp, Bool.false_eq_true, if_false]
      cases r <;> exact ⟨_, rfl⟩
  · simp [List.length_take]
  · show (items.foldl (concurrent_collect_step cat r) ⟨[], 0, 0, []⟩).errors.length = _
    rw [collect_errors_length]
    simp

/-- C7 witness: four errors, four failing sources — three displayed with
an ellipsis, four returned. -/
theorem C7_witness :
    (∃ p, (status_narrator true 1 0 2 ["e1", "e2", "e3", "e4"]).1 =
        p ++ (String.intercalate "; " ((["e1", "e2", "e3", "e4"] : List String).take 3) ++
          (if 3 < (["e1", "e2", "e3", "e4"] : List String).length then "..." else "")))
    ∧ (((["e1", "e2", "e3", "e4"] : List String).take 3)).length ≤ 3
    ∧ (fetch_multiple_ops_managers_concurrent "backup" true
        [(⟨"http://a", "R1", "E1"⟩,
            (⟨CacheContent.absent, AdapterOutcome.null, false, none⟩ : SourceEnv Nat)),
         (⟨"http://b", "R2", "E2"⟩, ⟨CacheContent.absent, AdapterOutcome.null, false, none⟩),
         (⟨"http://c", "R3", "E3"⟩, ⟨CacheContent.absent, AdapterOutcome.null, false, none⟩),
         (⟨"http://d", "R4", "E4"⟩, ⟨CacheContent.absent, AdapterOutcome.null, false, none⟩)]).errors.length =
        ([(⟨"http://a", "R1", "E1"⟩,
            (⟨CacheContent.absent, AdapterOutcome.null, false, none⟩ : SourceEnv Nat)),
          (⟨"http://b", "R2", "E2"⟩, ⟨CacheContent.absent, AdapterOutcome.null, false, none⟩),
          (⟨"http://c", "R3", "E3"⟩, ⟨CacheContent.absent, AdapterOutcome.null, false, none⟩),
          (⟨"http://d", "R4", "E4"⟩, ⟨CacheContent.absent, AdapterOutcome.null, false, none⟩)] :
          List (OpsManager × SourceEnv Nat)).countP (source_errored "backup" true) :=
  C7_error_display_cap true 1 0 2 ["e1", "e2", "e3", "e4"] "backup"
    [(⟨"http://a", "R1", "E1"⟩, ⟨CacheContent.absent, AdapterOutcome.null, false, none⟩),
     (⟨"http://b", "R2", "E2"⟩, ⟨CacheContent.absent, AdapterOutcome.null, false, none⟩),
     (⟨"http://c", "R3", "E3"⟩, ⟨CacheContent.absent, AdapterOutcome.null, false, none⟩),
     (⟨"http://d", "R4", "E4"⟩, ⟨CacheContent.absent, AdapterOutcome.null, false, none⟩)]
    (by decide)

/-- C8: the claim predicts an empty status message for a pure cache-hit
aggregation (`forceRefresh = false`, total 0, no errors), but the
concurrent aggregator's narrator produces a non-empty success message on
such an input (here: two cache-missing sources whose adapters return
empty lists, a reachable concurrent-path input with totals 0 and no
errors). -/
theorem C8_counterexample :
    (fetch_multiple_ops_managers_concurrent "backup" false
        [(⟨"http://a", "R1", "E1"⟩,
            (⟨CacheContent.absent, AdapterOutcome.ok [], false, none⟩ : SourceEnv Nat)),
         (⟨"http://b", "R2", "E2"⟩,
            ⟨CacheContent.absent, AdapterOutcome.ok [], false, none⟩)]).total_fetched = 0
    ∧ (fetch_multiple_ops_managers_concurrent "backup" false
        [(⟨"http://a", "R1", "E1"⟩,
            (⟨CacheContent.absent, AdapterOutcome.ok [], false, none⟩ : SourceEnv Nat)),
         (⟨"http://b", "R2", "E2"⟩,
            ⟨CacheContent.absent, AdapterOutcome.ok [], false, none⟩)]).total_cached = 0
    ∧ (fetch_multiple_ops_managers_concurrent "backup" false
        [(⟨"http://a", "R1", "E1"⟩,
            (⟨CacheContent.absent, AdapterOutcome.ok [], false, none⟩ : SourceEnv Nat)),
         (⟨"http://b", "R2", "E2"⟩,
            ⟨CacheContent.absent, AdapterOutcome.ok [], false, none⟩)]).errors = []
    ∧ (fetch_multiple_ops_managers_concurrent "backup" false
        [(⟨"http://a", "R1", "E1"⟩,
            (⟨CacheContent.absent, AdapterOutcome.ok [], false, none⟩ : SourceEnv Nat)),
         (⟨"http://b", "R2", "E2"⟩,
            ⟨CacheContent.absent, AdapterOutcome.ok [], false, none⟩)]).status_message ≠ "" := by
  refine ⟨rfl, rfl, rfl, ?_⟩
  decide

/-- C8 (amended): the status KIND of the concurrent narrator is a
deterministic function of the triple `(forceRefresh,
total_fetched + total_cached > 0, error list non-empty)`; and the empty
"pure cache hit" message arises in `backup_page`'s sequential branch,
which leaves the status message empty whenever `forceRefresh` is false
and nothing was fetched — the concurrent narrator instead reports a
non-empty success message. -/
theorem C8_amended :
    (∀ (r : Bool) (tf tc n : Nat) (es : List String),
        (status_narrator r tf tc n es).2 =
          narrator_kind r (decide (0 < tf + tc)) (!es.isEmpty))
    ∧ (∀ tc : Nat, backup_page_seq_status false 0 tc [] = ("", "")) := by
  constructor
  · intro r tf tc n es
    cases es with
    | nil => simp [status_narrator, narrator_kind]
    | cons e es =>
        by_cases h1 : 0 < tf
        · have ha : 0 < tf + tc := by omega
          simp [status_narrator, narrator_kind, h1, ha]
        · by_cases h2 : 0 < tc
          · have ha : 0 < tf + tc := by omega
            simp [status_narrator, narrator_kind, h1, h2, ha]
          · have ha : ¬ 0 < tf + tc := by omega
            simp [status_narrator, narrator_kind, h1, h2, ha]
  · intro tc
    rfl
